import Mathlib

/-!
Verification of the SimPub network coordination layer.

This file shallowly embeds the registry, service-loop, broadcast-loop and
stream-receiver logic of the repository (src/simpub/core/net_manager.py,
src/simpub/connection/streaming.py, src/sim_pub/sf/sf.py) and proves the
specified properties about the embedding.

Python dictionaries are modelled as association lists with insert-in-place
update (assigning to an existing key keeps its position, matching CPython
dict semantics); lookup returns the unique binding.
-/

namespace SimPub

/-- Python exceptions relevant to the embedded code paths. -/
inductive PyError where
  | valueError
  | keyError
  | typeError
  | runtimeError
deriving DecidableEq, Repr

/-- Dictionary lookup: `d[k]` / `k in d`, first (unique) binding. -/
def dictGet {κ α : Type} [DecidableEq κ] (d : List (κ × α)) (k : κ) : Option α :=
  match d with
  | [] => none
  | (k', v) :: rest => if k' = k then some v else dictGet rest k

/-- Dictionary assignment `d[k] = v`: replaces the binding in place when `k`
is present (CPython keeps key order), appends otherwise. -/
def dictInsert {κ α : Type} [DecidableEq κ] (d : List (κ × α)) (k : κ) (v : α) :
    List (κ × α) :=
  match d with
  | [] => [(k, v)]
  | (k', v') :: rest =>
      if k' = k then (k, v) :: rest else (k', v') :: dictInsert rest k v

/-- JSON values (Python `json` module).  JSON numbers are restricted to
integers here: the discovery/registration protocol of this repository
carries only strings, arrays and objects, and floating point is not
representable in the embedding. -/
inductive JValue where
  | null
  | bool (b : Bool)
  | num (n : Int)
  | str (s : String)
  | arr (xs : List JValue)
  | obj (fields : List (String × JValue))

/-- Service callbacks that can sit in `NetManager.service_callback`.
`registerClient` is the bound method `NetManager.register_client` (the one
callback the manager itself installs); `external i` stands for a
collaborator-supplied callable whose behaviour is abstract. -/
inductive SCallback where
  | registerClient
  | external (i : Nat)
deriving DecidableEq, Repr

/-- The mutable registry state of `NetManager` (net_manager.py): the
topic→host map, the per-host topic lists, the service→host map, and the
service callback table, plus the manager's own host address. -/
structure NetState where
  topic_map : List (String × String)
  host_topic : List (String × List String)
  service_map : List (String × String)
  service_callback : List (String × SCallback)
  host : String
deriving DecidableEq, Repr

/-- `NetManager.register_topic(topic, host)` (net_manager.py lines 125-131):
warn when the host is already registered (a pure log, no state effect),
assign `topic_map[topic] = host`, create the host's list when absent, then
append the topic to the host's list. -/
def register_topic (s : NetState) (topic host : String) : NetState :=
  let tm := dictInsert s.topic_map topic host
  let ht :=
    match dictGet s.host_topic host with
    | some l => dictInsert s.host_topic host (l ++ [topic])
    | none => dictInsert s.host_topic host [topic]
  { s with topic_map := tm, host_topic := ht }

/-- `NetManager.register_service(service, host, callback)` (net_manager.py
lines 133-137): record ownership and install the callback, silently
overwriting any prior registration. -/
def register_service (s : NetState) (service host : String) (cb : SCallback) :
    NetState :=
  { s with
    service_map := dictInsert s.service_map service host,
    service_callback := dictInsert s.service_callback service cb }

/-- The registry as `NetManager.__init__` leaves it (all maps empty). -/
def initState (host : String) : NetState :=
  { topic_map := [], host_topic := [], service_map := [],
    service_callback := [], host := host }

/-- Replay a sequence of `register_topic` calls. -/
def applyCalls (s : NetState) (calls : List (String × String)) : NetState :=
  calls.foldl (fun st c => register_topic st c.1 c.2) s

/-- The current topic list of a host (empty when the host is unknown). -/
def hostTopics (s : NetState) (host : String) : List String :=
  (dictGet s.host_topic host).getD []

/-- The opening brace character. -/
def lbrace : Char := Char.ofNat 123

/-- The closing brace character. -/
def rbrace : Char := Char.ofNat 125

/-- Lowercase hexadecimal digit, as CPython's `json` encoder emits. -/
def hexDigit (n : Nat) : Char :=
  if n < 10 then Char.ofNat (48 + n) else Char.ofNat (87 + n)

/-- Four-digit hexadecimal rendering of a code unit. -/
def hex4 (n : Nat) : List Char :=
  [hexDigit (n / 4096 % 16), hexDigit (n / 256 % 16), hexDigit (n / 16 % 16),
    hexDigit (n % 16)]

/-- CPython `json.dumps` escaping of one character with the default
`ensure_ascii=True`: named escapes for the usual control characters, raw
output for printable ASCII, `\uXXXX` (with surrogate pairs above the BMP)
for everything else. -/
def escapeChar (c : Char) : List Char :=
  if c = '"' then ['\\', '"']
  else if c = '\\' then ['\\', '\\']
  else if c = '\n' then ['\\', 'n']
  else if c = '\t' then ['\\', 't']
  else if c = '\r' then ['\\', 'r']
  else if c.toNat = 8 then ['\\', 'b']
  else if c.toNat = 12 then ['\\', 'f']
  else if 32 ≤ c.toNat ∧ c.toNat ≤ 126 then [c]
  else if c.toNat < 65536 then '\\' :: 'u' :: hex4 c.toNat
  else
    let n := c.toNat - 65536
    ('\\' :: 'u' :: hex4 (55296 + n / 1024)) ++ ('\\' :: 'u' :: hex4 (56320 + n % 1024))

/-- A JSON string literal: quote, escaped characters, quote. -/
def jstr (s : String) : String :=
  String.mk ('"' :: (s.toList.map escapeChar).flatten ++ ['"'])

mutual

/-- Python `json.dumps` with its default options (separators `", "` and
`": "`, `ensure_ascii=True`), on the JSON values of this protocol. -/
def jdump : JValue → String
  | .null => "null"
  | .bool true => "true"
  | .bool false => "false"
  | .num n => toString n
  | .str s => jstr s
  | .arr xs => "[" ++ jdumpArr xs ++ "]"
  | .obj fs => String.mk [lbrace] ++ jdumpObj fs ++ String.mk [rbrace]

/-- Array elements joined by `", "`. -/
def jdumpArr : List JValue → String
  | [] => ""
  | [x] => jdump x
  | x :: y :: xs => jdump x ++ ", " ++ jdumpArr (y :: xs)

/-- Object entries `"key": value` joined by `", "`. -/
def jdumpObj : List (String × JValue) → String
  | [] => ""
  | [(k, v)] => jstr k ++ ": " ++ jdump v
  | (k, v) :: f :: fs => jstr k ++ ": " ++ jdump v ++ ", " ++ jdumpObj (f :: fs)

end

/-- JSON insignificant whitespace. -/
def isJsonWs (c : Char) : Bool :=
  c = ' ' ∨ c = '\t' ∨ c = '\n' ∨ c = '\r'

/-- Drop leading JSON whitespace. -/
def skipWs : List Char → List Char
  | [] => []
  | c :: cs => if isJsonWs c then skipWs cs else c :: cs

/-- Value of a hexadecimal digit. -/
def hexVal (c : Char) : Option Nat :=
  if 48 ≤ c.toNat ∧ c.toNat ≤ 57 then some (c.toNat - 48)
  else if 97 ≤ c.toNat ∧ c.toNat ≤ 102 then some (c.toNat - 87)
  else if 65 ≤ c.toNat ∧ c.toNat ≤ 70 then some (c.toNat - 55)
  else none

/-- Body of a JSON string literal after the opening quote, fuel-bounded.
Returns the decoded characters and the input after the closing quote.
Escape sequences follow RFC 8259; a `\uXXXX` high surrogate must be
followed by a low surrogate (a lone surrogate, which CPython would keep in
the `str`, is not representable in `Char` and parses to `none`). -/
def parseStringBody (fuel : Nat) (cs : List Char) : Option (List Char × List Char) :=
  match fuel with
  | 0 => none
  | fuel + 1 =>
      match cs with
      | [] => none
      | c :: rest =>
          if c = '"' then some ([], rest)
          else if c = '\\' then
            match rest with
            | [] => none
            | e :: rest' =>
                if e = 'u' then
                  match rest' with
                  | a :: b :: c2 :: d :: rest2 =>
                      match hexVal a, hexVal b, hexVal c2, hexVal d with
                      | some ha, some hb, some hc, some hd =>
                          let n := ha * 4096 + hb * 256 + hc * 16 + hd
                          if 55296 ≤ n ∧ n ≤ 56319 then
                            match rest2 with
                            | b1 :: u1 :: a2 :: b2 :: c3 :: d2 :: rest3 =>
                                if b1 = '\\' ∧ u1 = 'u' then
                                  match hexVal a2, hexVal b2, hexVal c3, hexVal d2 with
                                  | some ha2, some hb2, some hc2, some hd2 =>
                                      let m := ha2 * 4096 + hb2 * 256 + hc2 * 16 + hd2
                                      if 56320 ≤ m ∧ m ≤ 57343 then
                                        (parseStringBody fuel rest3).map (fun p =>
                                          (Char.ofNat
                                              (65536 + (n - 55296) * 1024 + (m - 56320))
                                            :: p.1, p.2))
                                      else none
                                  | _, _, _, _ => none
                                else none
                            | _ => none
                          else if 56320 ≤ n ∧ n ≤ 57343 then none
                          else
                            (parseStringBody fuel rest2).map (fun p =>
                              (Char.ofNat n :: p.1, p.2))
                      | _, _, _, _ => none
                  | _ => none
                else
                  let decoded : Option Char :=
                    if e = '"' then some '"'
                    else if e = '\\' then some '\\'
                    else if e = '/' then some '/'
                    else if e = 'b' then some (Char.ofNat 8)
                    else if e = 'f' then some (Char.ofNat 12)
                    else if e = 'n' then some '\n'
                    else if e = 'r' then some '\r'
                    else if e = 't' then some '\t'
                    else none
                  match decoded with
                  | some ch =>
                      (parseStringBody fuel rest').map (fun p => (ch :: p.1, p.2))
                  | none => none
          else if c.toNat < 32 then none
          else (parseStringBody fuel rest).map (fun p => (c :: p.1, p.2))

/-- Leading decimal digit run. -/
def takeDigits : List Char → List Char × List Char
  | [] => ([], [])
  | c :: cs =>
      if c.isDigit then
        let p := takeDigits cs
        (c :: p.1, p.2)
      else ([], c :: cs)

/-- Digit run to its decimal value. -/
def digitsVal (cs : List Char) : Nat :=
  cs.foldl (fun n c => 10 * n + (c.toNat - 48)) 0

/-- JSON number (integers only: a fraction or exponent would make CPython
return a `float`, which the embedding does not represent). -/
def parseJNum (cs : List Char) : Option (Int × List Char) :=
  let (neg, cs') : Bool × List Char :=
    match cs with
    | '-' :: rest => (true, rest)
    | _ => (false, cs)
  let (ds, rest) := takeDigits cs'
  match ds with
  | [] => none
  | d :: ds' =>
      if d = '0' ∧ ds' ≠ [] then none
      else
        match rest with
        | '.' :: _ => none
        | 'e' :: _ => none
        | 'E' :: _ => none
        | _ =>
            let v : Int := Int.ofNat (digitsVal ds)
            some (if neg then -v else v, rest)

mutual

/-- Recursive-descent JSON value parser (CPython `json.loads` grammar on
the integer-number subset), fuel-bounded; the fuel chosen by `json_loads`
is always sufficient for the concrete inputs evaluated in this file. -/
def parseJValue : Nat → List Char → Option (JValue × List Char)
  | 0, _ => none
  | fuel + 1, cs =>
      match skipWs cs with
      | [] => none
      | c :: rest =>
          if c = 'n' then
            match rest with
            | 'u' :: 'l' :: 'l' :: r => some (.null, r)
            | _ => none
          else if c = 't' then
            match rest with
            | 'r' :: 'u' :: 'e' :: r => some (.bool true, r)
            | _ => none
          else if c = 'f' then
            match rest with
            | 'a' :: 'l' :: 's' :: 'e' :: r => some (.bool false, r)
            | _ => none
          else if c = '"' then
            (parseStringBody (rest.length + 1) rest).map (fun p =>
              (.str (String.mk p.1), p.2))
          else if c = '[' then
            match skipWs rest with
            | c2 :: r2 =>
                if c2 = ']' then some (.arr [], r2)
                else (parseJArrItems fuel (c2 :: r2)).map (fun p => (.arr p.1, p.2))
            | [] => none
          else if c = lbrace then
            match skipWs rest with
            | c2 :: r2 =>
                if c2 = rbrace then some (.obj [], r2)
                else (parseJObjItems fuel (c2 :: r2)).map (fun p => (.obj p.1, p.2))
            | [] => none
          else
            (parseJNum (c :: rest)).map (fun p => (.num p.1, p.2))

/-- Array items after `[`, separated by `,`, ended by `]`. -/
def parseJArrItems : Nat → List Char → Option (List JValue × List Char)
  | 0, _ => none
  | fuel + 1, cs =>
      match parseJValue fuel cs with
      | none => none
      | some (v, r) =>
          match skipWs r with
          | c :: r2 =>
              if c = ',' then
                (parseJArrItems fuel r2).map (fun p => (v :: p.1, p.2))
              else if c = ']' then some ([v], r2)
              else none
          | [] => none

/-- Object entries after the opening brace, `"key": value` pairs separated
by `,`, ended by the closing brace. -/
def parseJObjItems : Nat → List Char → Option (List (String × JValue) × List Char)
  | 0, _ => none
  | fuel + 1, cs =>
      match skipWs cs with
      | '"' :: rest =>
          match parseStringBody (rest.length + 1) rest with
          | none => none
          | some (key, r) =>
              match skipWs r with
              | ':' :: r2 =>
                  match parseJValue fuel r2 with
                  | none => none
                  | some (v, r3) =>
                      match skipWs r3 with
                      | c :: r4 =>
                          if c = ',' then
                            (parseJObjItems fuel r4).map (fun p =>
                              ((String.mk key, v) :: p.1, p.2))
                          else if c = rbrace then some ([(String.mk key, v)], r4)
                          else none
                      | [] => none
              | _ => none
      | _ => none

end

/-- Python `json.loads`: parse one value, then require only trailing
whitespace.  A parse failure is `ValueError` (`json.JSONDecodeError` is a
`ValueError` subclass). -/
def json_loads (s : String) : Except PyError JValue :=
  match parseJValue (4 * s.length + 8) s.toList with
  | some (v, rest) => if skipWs rest = [] then .ok v else .error .valueError
  | none => .error .valueError

/-- The `for topic in info["Topics"]` loop of `register_client`
(net_manager.py lines 122-123): `info["Host"]` is re-read on every
iteration, as in the source.  Topics or hosts outside the declared `str`
types (`Topic` and `IPAddress` are `str` newtypes in net_manager.py) are
not modelled and map to `typeError`. -/
def registerTopicsLoop (fields : List (String × JValue)) :
    List JValue → NetState → Except PyError NetState
  | [], s => .ok s
  | t :: ts, s =>
      match dictGet fields "Host" with
      | none => .error .keyError
      | some (.str h) =>
          match t with
          | .str tn => registerTopicsLoop fields ts (register_topic s tn h)
          | _ => .error .typeError
      | some _ => .error .typeError

/-- `NetManager.register_client(msg)` (net_manager.py lines 120-123): parse
the Client Info JSON and call `register_topic(topic, info["Host"])` for
each element of `info["Topics"]`.  Iterating a string yields its
characters and iterating a dict yields its keys, as in Python; subscripting
a non-dict value raises `TypeError`, a missing `"Topics"` key raises
`KeyError`. -/
def register_client (msg : String) (s : NetState) : Except PyError NetState :=
  match json_loads msg with
  | .error e => .error e
  | .ok info =>
      match info with
      | .obj fields =>
          match dictGet fields "Topics" with
          | none => .error .keyError
          | some (.arr topics) => registerTopicsLoop fields topics s
          | some (.str t) =>
              registerTopicsLoop fields (t.toList.map (fun c => .str (String.mk [c]))) s
          | some (.obj fs) =>
              registerTopicsLoop fields (fs.map (fun kv => .str kv.1)) s
          | some _ => .error .typeError
      | _ => .error .typeError

/-- `message.split(":", 1)` followed by a two-name unpacking: the part
before the first colon and everything after it, or `none` when the message
has no colon (in which case unpacking the one-element list raises
`ValueError`). -/
def splitOnceColon : List Char → Option (List Char × List Char)
  | [] => none
  | c :: cs =>
      if c = ':' then some ([], cs)
      else (splitOnceColon cs).map (fun p => (c :: p.1, p.2))

/-- The values the service loop passes positionally to a callback: the
request body string and the ZMQ reply socket object. -/
inductive PyVal where
  | str (s : String)
  | socket
deriving Repr

/-- Calling a Python callable with positional arguments.  The bound method
`NetManager.register_client` declares exactly one positional parameter
(`msg`), so a call with any other number of arguments raises `TypeError`
before the body runs; a single non-string argument would fail inside
`json.loads`.  A collaborator-supplied callable has the abstract behaviour
`runExternal`.  The returned list collects the strings the callback sent
on the reply socket (`register_client` sends none). -/
def invokeCallback
    (runExternal : Nat → List PyVal → NetState → Except PyError (NetState × List String))
    (cb : SCallback) (args : List PyVal) (s : NetState) :
    Except PyError (NetState × List String) :=
  match cb with
  | .registerClient =>
      match args with
      | [.str m] => (register_client m s).map (fun s' => (s', []))
      | [_] => .error .typeError
      | _ => .error .typeError
  | .external i => runExternal i args s

/-- The registration `service_loop` performs before entering its while loop
(net_manager.py lines 91-94): install the built-in `"Register"` service
with the bound `register_client` callback. -/
def service_loop_init (s : NetState) : NetState :=
  register_service s "Register" s.host .registerClient

/-- One iteration of the `while self.running` body of
`NetManager.service_loop` (net_manager.py lines 95-102) on an inbound
message: split on the first colon (no colon makes the two-name unpacking
raise `ValueError`), call the registered callback with
`(request, service_socket)` when the service name is in `service_map`, or
reply with the literal `"Invild Service"` otherwise.  `.ok` carries the
new registry state and the strings sent on the reply socket; `.error` is
an exception escaping the loop body, which has no handler. -/
def serviceLoopStep
    (runExternal : Nat → List PyVal → NetState → Except PyError (NetState × List String))
    (s : NetState) (message : String) :
    Except PyError (NetState × List String) :=
  match splitOnceColon message.toList with
  | none => .error .valueError
  | some (serviceCs, requestCs) =>
      let service := String.mk serviceCs
      let request := String.mk requestCs
      if (dictGet s.service_map service).isSome then
        match dictGet s.service_callback service with
        | some cb => invokeCallback runExternal cb [.str request, .socket] s
        | none => .error .keyError
      else
        .ok (s, ["Invild Service"])

/-- Split a dotted string on `'.'`. -/
def splitDots : List Char → List (List Char)
  | [] => [[]]
  | c :: cs =>
      if c = '.' then [] :: splitDots cs
      else
        match splitDots cs with
        | g :: gs => (c :: g) :: gs
        | [] => [[c]]

/-- A nonempty decimal digit run to its value. -/
def digitsToNat? (cs : List Char) : Option Nat :=
  if cs = [] then none
  else if cs.all (fun c => c.isDigit) then some (digitsVal cs)
  else none

/-- `struct.unpack("!I", socket.inet_aton(s))[0]`: a dotted quad as a
32-bit big-endian integer.  The short forms `inet_aton` also accepts
("a.b.c", "a.b", "a") are not used by this repository and map to
`none`. -/
def parseIPv4 (s : String) : Option Nat :=
  match (splitDots s.toList).mapM digitsToNat? with
  | some [a, b, c, d] =>
      if a ≤ 255 ∧ b ≤ 255 ∧ c ≤ 255 ∧ d ≤ 255 then
        some (16777216 * a + 65536 * b + 256 * c + d)
      else none
  | _ => none

/-- `socket.inet_ntoa(struct.pack("!I", n))`: a 32-bit integer back to a
dotted quad. -/
def natToIPv4 (n : Nat) : String :=
  toString (n / 16777216 % 256) ++ "." ++ toString (n / 65536 % 256) ++ "."
    ++ toString (n / 256 % 256) ++ "." ++ toString (n % 256)

/-- Python `~x & 0xFFFFFFFF` for a 32-bit `x`: two's-complement negation
(`~x = -(x+1)`) masked to the low 32 bits. -/
def pyInv32 (x : Nat) : Nat := ((-(x + 1 : Int)) % (4294967296 : Int)).toNat

/-- A UDP datagram sent by the broadcast loop: payload, destination
address, destination port. -/
structure SendEvent where
  msg : String
  addr : String
  port : Nat
deriving DecidableEq, Repr

/-- The JSON value `json.dumps` sees for `self.connection_map`: the dict
literal built in `__init__` (net_manager.py lines 70-73) aliases
`topic_map` and `service_map`, so serialization always reads the current
maps. -/
def connectionMapJson (s : NetState) : JValue :=
  .obj [("Topic", .obj (s.topic_map.map (fun kv => (kv.1, JValue.str kv.2)))),
        ("Service", .obj (s.service_map.map (fun kv => (kv.1, JValue.str kv.2))))]

/-- One iteration of the `while self.running` body of
`NetManager.broadcast_loop` (net_manager.py lines 104-118): the /24
broadcast address is computed from `self.host` with
`ip_bin | ~netmask_bin & 0xFFFFFFFF` for netmask `"255.255.255.0"`, and
`"SimPub:" + json.dumps(self.connection_map)` is sent to it on the
discovery port 7720.  `none` when `inet_aton` rejects the host string (the
loop would raise before sending anything). -/
def broadcastIteration (s : NetState) : Option SendEvent :=
  match parseIPv4 s.host, parseIPv4 "255.255.255.0" with
  | some ip_bin, some netmask_bin =>
      let broadcast_bin := Nat.lor ip_bin (pyInv32 netmask_bin)
      some { msg := "SimPub:" ++ jdump (connectionMapJson s),
             addr := natToIPv4 broadcast_bin,
             port := 7720 }
  | _, _ => none

/-- `SFSimStreamer.execute_callback(request)` (sf.py lines 64-71): look up
`request["message_type"]` in the caller-populated `register_callback_dict`;
when the type is a key, call its handler with the full envelope, otherwise
print a message and return.  `.ok (some (cb, request))` records the
handler invocation (handlers are identified by the table's values);
`.ok none` is the dropped-event path.  A missing `"message_type"` key
raises `KeyError`; an unhashable value there (list or dict) would raise
`TypeError` in the membership test; any other non-string value simply
fails the membership test. -/
def execute_callback (table : List (String × Nat))
    (request : List (String × JValue)) :
    Except PyError (Option (Nat × List (String × JValue))) :=
  match dictGet request "message_type" with
  | none => .error .keyError
  | some (.str t) =>
      match dictGet table t with
      | some cb => .ok (some (cb, request))
      | none => .ok none
  | some (.arr _) => .error .typeError
  | some (.obj _) => .error .typeError
  | some _ => .ok none

/-- Sequential state of a `StreamReceiver` (streaming.py): the dedicated
thread created in `__init__` (a `threading.Thread` can be started at most
once), the running flag, and the connection target. -/
structure RecvState where
  threadStarted : Bool
  threadFinished : Bool
  running : Bool
  conn : Option (String × Nat)
deriving DecidableEq, Repr

/-- `StreamReceiver.__init__` (streaming.py lines 13-19). -/
def recvInit : RecvState :=
  { threadStarted := false, threadFinished := false, running := false, conn := none }

/-- A receiver in a connected session: thread started and running, a
target recorded (the state `connect` on a fresh receiver produces). -/
def recvConnected : RecvState :=
  { threadStarted := true, threadFinished := false, running := true,
    conn := some ("127.0.0.1", 7722) }

/-- `StreamReceiver.connect(addr, port)` (streaming.py lines 21-24): record
the target, set the running flag, then `Thread.start()` — which raises
`RuntimeError` when the thread has already been started once (the
exception propagates to the caller; the already-performed field writes are
irrelevant to that raise). -/
def connectRecv (s : RecvState) (addr : String) (port : Nat) :
    Except PyError RecvState :=
  if s.threadStarted then .error .runtimeError
  else .ok { s with conn := some (addr, port), running := true, threadStarted := true }

/-- `StreamReceiver.disconnect()` (streaming.py lines 26-28): clear the
running flag, then `Thread.join()`.  `join` raises `RuntimeError` when the
thread was never started; otherwise it returns once the loop observed the
cleared flag and exited. -/
def disconnectRecv (s : RecvState) : Except PyError RecvState :=
  if s.threadStarted then
    .ok { s with running := false, threadFinished := true }
  else .error .runtimeError

/-- Control points of the receiver-loop thread (`StreamReceiver._loop`,
streaming.py lines 30-39): at the `while self.running` test, blocked in
`recv_string`, about to call the callback, or exited past the
`finally`. -/
inductive RPc where
  | check
  | recv
  | invoke
  | exited
deriving DecidableEq, Repr

/-- Joint interleaving state of the receiver-loop thread and a thread
executing `disconnect()`: `dpc = 0` before `self.running = False`, `1`
between the flag write and `join()` returning, `2` after `join()`
returned. -/
structure CState where
  running : Bool
  rpc : RPc
  dpc : Nat
deriving DecidableEq, Repr

/-- Atomic interleaved actions: the two statements of `disconnect` and the
receiver-loop transitions (flag test, a message fully received, a `None`
message skipped by `continue`, the callback invocation). -/
inductive Lbl where
  | setFlag
  | join
  | loopCheck
  | loopRecv
  | loopNone
  | callbackRun
deriving DecidableEq, Repr

/-- One interleaved step; `none` when the action is not enabled.  `join`
completes only once the loop thread has exited — the semantics of
`threading.Thread.join`. -/
def cstep (s : CState) : Lbl → Option CState
  | .setFlag => if s.dpc = 0 then some { s with running := false, dpc := 1 } else none
  | .join => if s.dpc = 1 ∧ s.rpc = .exited then some { s with dpc := 2 } else none
  | .loopCheck =>
      if s.rpc = .check then
        some { s with rpc := if s.running then .recv else .exited }
      else none
  | .loopRecv => if s.rpc = .recv then some { s with rpc := .invoke } else none
  | .loopNone => if s.rpc = .recv then some { s with rpc := .check } else none
  | .callbackRun => if s.rpc = .invoke then some { s with rpc := .check } else none

/-- Run a schedule of interleaved steps; `none` when some step in it is
not enabled. -/
def runTrace (s : CState) : List Lbl → Option CState
  | [] => some s
  | l :: ls =>
      match cstep s l with
      | some s' => runTrace s' ls
      | none => none

end SimPub

namespace SimPub

theorem dictGet_dictInsert_self {κ α : Type} [DecidableEq κ]
    (d : List (κ × α)) (k : κ) (v : α) : dictGet (dictInsert d k v) k = some v := by
  induction d with
  | nil => simp [dictInsert, dictGet]
  | cons hd tl ih =>
      obtain ⟨k', v'⟩ := hd
      by_cases hk : k' = k
      · simp [dictInsert, dictGet, hk]
      · simp [dictInsert, dictGet, hk, ih]

theorem dictGet_dictInsert_ne {κ α : Type} [DecidableEq κ]
    (d : List (κ × α)) (k k' : κ) (v : α) (hne : k ≠ k') :
    dictGet (dictInsert d k v) k' = dictGet d k' := by
  induction d with
  | nil => simp [dictInsert, dictGet, hne]
  | cons hd tl ih =>
      obtain ⟨k0, v0⟩ := hd
      by_cases hk : k0 = k
      · subst hk
        simp [dictInsert, dictGet, hne]
      · simp [dictInsert, dictGet, hk, ih]

theorem hostTopics_register_topic (s : NetState) (topic host h : String) :
    hostTopics (register_topic s topic host) h =
      hostTopics s h ++ if host = h then [topic] else [] := by
  by_cases hh : host = h
  · subst hh
    unfold hostTopics register_topic
    cases hg : dictGet s.host_topic host <;>
      simp [hg, dictGet_dictInsert_self]
  · unfold hostTopics register_topic
    cases hg : dictGet s.host_topic host <;>
      simp [hg, dictGet_dictInsert_ne _ _ _ _ hh, hh]

theorem count_hostTopics_applyCalls (calls : List (String × String))
    (s : NetState) (t h : String) :
    (hostTopics (applyCalls s calls) h).count t =
      (hostTopics s h).count t + calls.count (t, h) := by
  induction calls generalizing s with
  | nil => simp [applyCalls]
  | cons c cs ih =>
      obtain ⟨a, b⟩ := c
      have : applyCalls s ((a, b) :: cs) = applyCalls (register_topic s a b) cs := rfl
      rw [this, ih, hostTopics_register_topic]
      by_cases hb : b = h
      · subst hb
        by_cases ha : a = t
        · subst ha
          simp [List.count_cons, List.count_append]
          omega
        · simp [List.count_cons, List.count_append, ha, Ne.symm ha]
      · have hne : (t, h) ≠ (a, b) := by
          intro hcontra
          exact hb (by cases hcontra; rfl)
        simp [List.count_cons, hb, hne]

theorem topic_map_applyCalls_mem (calls : List (String × String))
    (s : NetState) (t h : String)
    (hm : dictGet (applyCalls s calls).topic_map t = some h) :
    (t, h) ∈ calls ∨ dictGet s.topic_map t = some h := by
  induction calls generalizing s with
  | nil => exact Or.inr hm
  | cons c cs ih =>
      obtain ⟨a, b⟩ := c
      have hstep : applyCalls s ((a, b) :: cs) = applyCalls (register_topic s a b) cs := rfl
      rw [hstep] at hm
      rcases ih _ hm with hmem | hbase
      · exact Or.inl (List.mem_cons_of_mem _ hmem)
      · by_cases ha : a = t
        · subst ha
          have : dictGet (register_topic s a b).topic_map a = some b := by
            unfold register_topic
            simp [dictGet_dictInsert_self]
          rw [this] at hbase
          cases hbase
          exact Or.inl (List.mem_cons_self _ _)
        · have : dictGet (register_topic s a b).topic_map t = dictGet s.topic_map t := by
            unfold register_topic
            simp [dictGet_dictInsert_ne _ _ _ _ ha]
          rw [this] at hbase
          exact Or.inr hbase

/-- C1 counterexample: registering the same topic twice for the same host
leaves the topic in the topic→host map but TWICE in that host's topic list,
so "appears exactly once" fails for the call sequence
`register_topic("t","h"); register_topic("t","h")`. -/
theorem C1_counterexample :
    dictGet (applyCalls (initState "127.0.0.1") [("t", "h"), ("t", "h")]).topic_map "t"
        = some "h" ∧
      (hostTopics (applyCalls (initState "127.0.0.1") [("t", "h"), ("t", "h")]) "h").count "t"
        = 2 := by
  constructor <;> rfl

/-- C1 (amended): after any sequence of `register_topic` calls from the
initial state, every topic `t` that the topic→host map assigns to host `h`
appears in `h`'s topic list exactly as many times as the pair `(t, h)` was
registered in the sequence — hence at least once, but not exactly once when
the same registration was repeated. -/
theorem C1_topic_in_owner_list (calls : List (String × String)) (host t h : String)
    (hm : dictGet (applyCalls (initState host) calls).topic_map t = some h) :
    (hostTopics (applyCalls (initState host) calls) h).count t = calls.count (t, h) ∧
      1 ≤ (hostTopics (applyCalls (initState host) calls) h).count t := by
  have hcount := count_hostTopics_applyCalls calls (initState host) t h
  have hzero : (hostTopics (initState host) h).count t = 0 := rfl
  rw [hzero] at hcount
  have hmem : (t, h) ∈ calls := by
    rcases topic_map_applyCalls_mem calls (initState host) t h hm with hin | hbase
    · exact hin
    · exact absurd hbase (by simp [initState, dictGet])
  have hpos : 0 < calls.count (t, h) := List.count_pos_iff.mpr hmem
  omega

/-- C1 witness: a concrete instantiation of `C1_topic_in_owner_list`. -/
theorem C1_topic_in_owner_list_witness :
    dictGet (applyCalls (initState "127.0.0.1") [("a", "b")]).topic_map "a" = some "b" ∧
      ((hostTopics (applyCalls (initState "127.0.0.1") [("a", "b")]) "b").count "a"
          = [("a", "b")].count ("a", "b") ∧
        1 ≤ (hostTopics (applyCalls (initState "127.0.0.1") [("a", "b")]) "b").count "a") :=
  ⟨rfl, C1_topic_in_owner_list [("a", "b")] "127.0.0.1" "a" "b" rfl⟩

theorem splitOnceColon_of_not_mem (cs : List Char) (h : ':' ∉ cs) :
    splitOnceColon cs = none := by
  induction cs with
  | nil => rfl
  | cons c cs ih =>
      rw [List.mem_cons] at h
      push_neg at h
      have hc : ¬ c = ':' := fun hh => h.1 hh.symm
      simp [splitOnceColon, hc, ih h.2]

theorem splitOnceColon_append (l₁ l₂ : List Char) (h : ':' ∉ l₁) :
    splitOnceColon (l₁ ++ ':' :: l₂) = some (l₁, l₂) := by
  induction l₁ with
  | nil => simp [splitOnceColon]
  | cons c cs ih =>
      rw [List.mem_cons] at h
      push_neg at h
      have hc : ¬ c = ':' := fun hh => h.1 hh.symm
      simp [splitOnceColon, hc, ih h.2]

theorem toList_concat_colon (name request : String) :
    (name ++ ":" ++ request).toList = name.toList ++ ':' :: request.toList := by
  simp [String.toList]

theorem serviceLoopStep_split
    (runExternal : Nat → List PyVal → NetState → Except PyError (NetState × List String))
    (s : NetState) (name request : String) (hname : ':' ∉ name.toList) :
    serviceLoopStep runExternal s (name ++ ":" ++ request) =
      if (dictGet s.service_map name).isSome then
        match dictGet s.service_callback name with
        | some cb => invokeCallback runExternal cb [.str request, .socket] s
        | none => .error .keyError
      else .ok (s, ["Invild Service"]) := by
  unfold serviceLoopStep
  rw [toList_concat_colon, splitOnceColon_append _ _ hname]
  rfl

/-- C2: for any request body sent to the built-in `"Register"` service —
well-formed Client Info payloads included — the service loop's invocation
of the installed callback raises `TypeError` instead of completing:
`service_loop` calls the callback with the two arguments
`(request, service_socket)` while the bound method `register_client`
accepts exactly one, so no topic is ever registered through the service
channel. -/
theorem C2_register_request_raises
    (runExternal : Nat → List PyVal → NetState → Except PyError (NetState × List String))
    (s : NetState) (request : String)
    (hm : (dictGet s.service_map "Register").isSome = true)
    (hc : dictGet s.service_callback "Register" = some SCallback.registerClient) :
    serviceLoopStep runExternal s ("Register:" ++ request) = .error .typeError := by
  have heq : "Register:" ++ request = "Register" ++ ":" ++ request := rfl
  rw [heq, serviceLoopStep_split runExternal s "Register" request (by decide), hm, hc]
  rfl

/-- C2 witness: the spec's own example payload, sent to a manager whose
service loop has installed the `"Register"` service, raises `TypeError`. -/
theorem C2_register_request_raises_witness :
    (dictGet (service_loop_init (initState "127.0.0.1")).service_map "Register").isSome
        = true ∧
      dictGet (service_loop_init (initState "127.0.0.1")).service_callback "Register"
        = some SCallback.registerClient ∧
      serviceLoopStep (fun _ _ st => .ok (st, []))
          (service_loop_init (initState "127.0.0.1"))
          ("Register:" ++ "\x7b\"Host\": \"10.0.0.9\", \"Topics\": [\"scene/updates\"]\x7d")
        = .error .typeError :=
  ⟨rfl, rfl, C2_register_request_raises _ _ _ rfl rfl⟩

/-- The intent behind C2 is realized one call-level down: `register_client`
itself, applied to the one argument its signature declares, does register
every declared topic to the declared host (evaluated on the spec's example
payload). -/
theorem register_client_direct_example :
    register_client "\x7b\"Host\": \"10.0.0.9\", \"Topics\": [\"scene/updates\"]\x7d"
        (initState "127.0.0.1")
      = .ok (register_topic (initState "127.0.0.1") "scene/updates" "10.0.0.9") := rfl

/-- C3: a service-channel message without the `":"` delimiter makes the
two-name unpacking `service, request = message.split(":", 1)` raise
`ValueError`; the loop body has no exception handler, so the error
escapes `service_loop` and the loop stops accepting requests, contrary to
the claim. -/
theorem C3_malformed_message_raises
    (runExternal : Nat → List PyVal → NetState → Except PyError (NetState × List String))
    (s : NetState) (message : String) (h : ':' ∉ message.toList) :
    serviceLoopStep runExternal s message = .error .valueError := by
  unfold serviceLoopStep
  rw [splitOnceColon_of_not_mem _ h]

/-- C3 witness: the delimiter-less message `"ping"` raises out of the
loop. -/
theorem C3_malformed_message_raises_witness :
    (':' ∉ "ping".toList) ∧
      serviceLoopStep (fun _ _ st => .ok (st, []))
          (service_loop_init (initState "127.0.0.1")) "ping"
        = .error .valueError :=
  ⟨by decide, C3_malformed_message_raises _ _ _ (by decide)⟩

/-- C4: a service request whose name (the part before the first colon) is
not in `service_map` gets exactly the fixed reply `"Invild Service"`, the
entire registry state (topic map, host-topic lists, service map and
callback table) is returned unchanged, and the step completes normally so
the loop proceeds to the next request. -/
theorem C4_unknown_service_reply
    (runExternal : Nat → List PyVal → NetState → Except PyError (NetState × List String))
    (s : NetState) (name request : String) (hname : ':' ∉ name.toList)
    (hunk : dictGet s.service_map name = none) :
    serviceLoopStep runExternal s (name ++ ":" ++ request)
      = .ok (s, ["Invild Service"]) := by
  rw [serviceLoopStep_split runExternal s name request hname, hunk]
  rfl

/-- C4 witness: an unregistered service name on a manager with the
built-in `"Register"` service installed. -/
theorem C4_unknown_service_reply_witness :
    (':' ∉ "Discover".toList) ∧
      dictGet (service_loop_init (initState "127.0.0.1")).service_map "Discover" = none ∧
      serviceLoopStep (fun _ _ st => .ok (st, []))
          (service_loop_init (initState "127.0.0.1")) ("Discover" ++ ":" ++ "body")
        = .ok (service_loop_init (initState "127.0.0.1"), ["Invild Service"]) :=
  ⟨by decide, rfl,
    C4_unknown_service_reply _ _ "Discover" "body" (by decide) rfl⟩

/-- C5: whenever the manager's host string is a dotted quad (so
`inet_aton` accepts it), each broadcast-loop iteration sends exactly
`"SimPub:" + json.dumps({"Topic": topic_map, "Service": service_map})` for
the current maps, on discovery port 7720, to the address
`ip | ~netmask & 0xFFFFFFFF` for netmask `255.255.255.0` — whose masked
complement is 255, i.e. the /24 broadcast address. -/
theorem C5_broadcast_wire_format (s : NetState) (ip : Nat)
    (hip : parseIPv4 s.host = some ip) :
    broadcastIteration s = some
      { msg := "SimPub:" ++ jdump (JValue.obj
            [("Topic", JValue.obj (s.topic_map.map (fun kv => (kv.1, JValue.str kv.2)))),
             ("Service",
                JValue.obj (s.service_map.map (fun kv => (kv.1, JValue.str kv.2))))]),
        addr := natToIPv4 (Nat.lor ip (pyInv32 4294967040)),
        port := 7720 } ∧
      pyInv32 4294967040 = 255 := by
  have hmask : parseIPv4 "255.255.255.0" = some 4294967040 := rfl
  refine ⟨?_, rfl⟩
  unfold broadcastIteration
  rw [hip, hmask]
  rfl

/-- C5 witness: the spec's example scenario — host `10.0.0.5`, topic
`"scene/updates"`, built-in `"Register"` service — broadcast to
`10.0.0.255:7720`. -/
theorem C5_broadcast_wire_format_witness :
    parseIPv4 "10.0.0.5" = some 167772165 ∧
      (broadcastIteration
            (register_topic (service_loop_init (initState "10.0.0.5"))
              "scene/updates" "10.0.0.5") = some
          { msg := "SimPub:" ++ jdump (JValue.obj
                [("Topic", JValue.obj
                    ((register_topic (service_loop_init (initState "10.0.0.5"))
                        "scene/updates" "10.0.0.5").topic_map.map
                      (fun kv => (kv.1, JValue.str kv.2)))),
                 ("Service", JValue.obj
                    ((register_topic (service_loop_init (initState "10.0.0.5"))
                        "scene/updates" "10.0.0.5").service_map.map
                      (fun kv => (kv.1, JValue.str kv.2))))]),
            addr := natToIPv4 (Nat.lor 167772165 (pyInv32 4294967040)),
            port := 7720 } ∧
        pyInv32 4294967040 = 255) :=
  ⟨rfl, C5_broadcast_wire_format _ 167772165 rfl⟩

/-- C8: when `host` already owns at least one topic, `register_topic`
still proceeds: the topic→host map now assigns `host` to `topic` and
`topic` has been appended to `host`'s existing topic list (warn-and-append
semantics, no rejection and no replacement). -/
theorem C8_duplicate_host_append (s : NetState) (topic host : String) (l : List String)
    (hl : dictGet s.host_topic host = some l) (_hne : l ≠ []) :
    dictGet (register_topic s topic host).topic_map topic = some host ∧
      dictGet (register_topic s topic host).host_topic host = some (l ++ [topic]) := by
  unfold register_topic
  rw [hl]
  exact ⟨dictGet_dictInsert_self _ _ _, dictGet_dictInsert_self _ _ _⟩

/-- C8 witness: host `"h"` already owns `["a"]`; registering `"b"`
proceeds and appends. -/
theorem C8_duplicate_host_append_witness :
    (dictGet (register_topic (initState "127.0.0.1") "a" "h").host_topic "h"
        = some ["a"] ∧ (["a"] : List String) ≠ []) ∧
      (dictGet
            (register_topic (register_topic (initState "127.0.0.1") "a" "h") "b" "h").topic_map
            "b" = some "h" ∧
        dictGet
            (register_topic (register_topic (initState "127.0.0.1") "a" "h") "b" "h").host_topic
            "h" = some (["a"] ++ ["b"])) :=
  ⟨⟨rfl, by decide⟩,
    C8_duplicate_host_append (register_topic (initState "127.0.0.1") "a" "h") "b" "h"
      ["a"] rfl (by decide)⟩

/-- C9: for an envelope whose `"message_type"` field holds the string `t`,
the dispatcher invokes the handler registered under `t` with the full
envelope when the table has `t`, and otherwise completes normally without
invoking any handler (the event is dropped), captured by the single
equation on `execute_callback`. -/
theorem C9_dispatch_route_or_drop (table : List (String × Nat))
    (request : List (String × JValue)) (t : String)
    (hmt : dictGet request "message_type" = some (.str t)) :
    execute_callback table request
      = .ok ((dictGet table t).map (fun cb => (cb, request))) := by
  unfold execute_callback
  rw [hmt]
  show (match dictGet table t with
    | some cb => Except.ok (some (cb, request))
    | none => Except.ok none) = _
  cases hg : dictGet table t <;> simp [hg]

/-- C9 witness: a `start_stream` envelope routed through a table holding
the `start_stream` handler. -/
theorem C9_dispatch_route_or_drop_witness :
    dictGet [("message_type", JValue.str "start_stream")] "message_type"
        = some (.str "start_stream") ∧
      execute_callback [("start_stream", 0)] [("message_type", JValue.str "start_stream")]
        = .ok ((dictGet [("start_stream", 0)] "start_stream").map
            (fun cb => (cb, [("message_type", JValue.str "start_stream")]))) :=
  ⟨rfl, C9_dispatch_route_or_drop [("start_stream", 0)]
    [("message_type", JValue.str "start_stream")] "start_stream" rfl⟩

/-- C10: topic and service registration do not interfere:
`register_topic` leaves the service map and the service callback table
untouched, and `register_service` leaves the topic map and every host's
topic list untouched. -/
theorem C10_registration_frame (s : NetState) (topic host service shost : String)
    (cb : SCallback) :
    ((register_topic s topic host).service_map = s.service_map ∧
        (register_topic s topic host).service_callback = s.service_callback) ∧
      ((register_service s service shost cb).topic_map = s.topic_map ∧
        (register_service s service shost cb).host_topic = s.host_topic) :=
  ⟨⟨rfl, rfl⟩, rfl, rfl⟩

theorem runTrace_append (s : CState) (l₁ l₂ : List Lbl) :
    runTrace s (l₁ ++ l₂) = (runTrace s l₁).bind (fun s' => runTrace s' l₂) := by
  induction l₁ generalizing s with
  | nil => simp [runTrace]
  | cons l ls ih =>
      cases hc : cstep s l <;> simp [runTrace, hc, ih]

theorem cstep_rpc_exited {s s' : CState} {l : Lbl} (h : s.rpc = .exited)
    (hs : cstep s l = some s') : s'.rpc = .exited := by
  cases l with
  | setFlag =>
      unfold cstep at hs
      by_cases hd : s.dpc = 0
      · rw [if_pos hd] at hs
        cases hs
        exact h
      · rw [if_neg hd] at hs
        cases hs
  | join =>
      unfold cstep at hs
      by_cases hd : s.dpc = 1 ∧ s.rpc = RPc.exited
      · rw [if_pos hd] at hs
        cases hs
        exact h
      · rw [if_neg hd] at hs
        cases hs
  | loopCheck => simp [cstep, h] at hs
  | loopRecv => simp [cstep, h] at hs
  | loopNone => simp [cstep, h] at hs
  | callbackRun => simp [cstep, h] at hs

theorem runTrace_no_callback_of_exited (ls : List Lbl) (s : CState)
    (h : s.rpc = .exited) (hrun : (runTrace s ls).isSome = true) :
    Lbl.callbackRun ∉ ls := by
  induction ls generalizing s with
  | nil => simp
  | cons l ls ih =>
      intro hmem
      unfold runTrace at hrun
      cases hc : cstep s l with
      | none => rw [hc] at hrun; simp at hrun
      | some s' =>
          rw [hc] at hrun
          rcases List.mem_cons.mp hmem with rfl | hmem'
          · simp [cstep, h] at hc
          · exact ih s' (cstep_rpc_exited h hc) hrun hmem'

/-- C6: in every interleaved execution of the receiver loop and
`disconnect()`, once `Thread.join()` has returned (which is when
`disconnect()` returns), no further callback invocation occurs: `join`
only completes after the loop thread reached its exit point, exit is
absorbing, and the callback step is enabled only inside the loop. -/
theorem C6_no_callback_after_disconnect (s0 sEnd : CState) (pre post : List Lbl)
    (hrun : runTrace s0 (pre ++ Lbl.join :: post) = some sEnd) :
    Lbl.callbackRun ∉ post := by
  rw [runTrace_append] at hrun
  cases h1 : runTrace s0 pre with
  | none => rw [h1] at hrun; simp at hrun
  | some s1 =>
      rw [h1] at hrun
      simp only [Option.some_bind] at hrun
      unfold runTrace at hrun
      cases h2 : cstep s1 .join with
      | none => rw [h2] at hrun; simp at hrun
      | some s2 =>
          rw [h2] at hrun
          have hex : s2.rpc = .exited := by
            unfold cstep at h2
            by_cases hcond : s1.dpc = 1 ∧ s1.rpc = RPc.exited
            · rw [if_pos hcond] at h2
              cases h2
              exact hcond.2
            · rw [if_neg hcond] at h2
              cases h2
          exact runTrace_no_callback_of_exited post s2 hex
            (by rw [show runTrace s2 post = some sEnd from hrun]; rfl)

/-- C6 witness: a concrete interleaving — one message is fully received
and its callback runs, then `disconnect` clears the flag, the loop
observes it and exits, and `join` returns; afterwards nothing can run. -/
theorem C6_no_callback_after_disconnect_witness :
    runTrace ⟨true, RPc.check, 0⟩
        ([Lbl.loopCheck, Lbl.loopRecv, Lbl.callbackRun, Lbl.setFlag, Lbl.loopCheck]
          ++ Lbl.join :: [])
        = some ⟨false, RPc.exited, 2⟩ ∧
      Lbl.callbackRun ∉ ([] : List Lbl) :=
  ⟨by decide,
    C6_no_callback_after_disconnect ⟨true, RPc.check, 0⟩ ⟨false, RPc.exited, 2⟩
      [Lbl.loopCheck, Lbl.loopRecv, Lbl.callbackRun, Lbl.setFlag, Lbl.loopCheck] []
      (by decide)⟩

/-- C7 counterexample: calling `connect` on a receiver that is already
connected raises `RuntimeError`, because `connect` calls `Thread.start()`
on the thread created in `__init__` and a `threading.Thread` can only be
started once — the claim's "behaves as the single call does and does not
fail" is false. -/
theorem C7_counterexample :
    (connectRecv recvInit "127.0.0.1" 7722).bind
        (fun s => connectRecv s "127.0.0.1" 7722) = .error .runtimeError := rfl

/-- C7 (amended): `disconnect` alone is idempotent-by-flag — on any
receiver whose loop thread has been started, a second `disconnect`
behaves exactly as the single call and does not fail — while any `connect`
on such a receiver (a repeat `connect`, or a reconnect after
`disconnect`) raises `RuntimeError` from `Thread.start()`. -/
theorem C7_disconnect_idempotent (s : RecvState) (h : s.threadStarted = true)
    (addr : String) (port : Nat) :
    disconnectRecv s = .ok { s with running := false, threadFinished := true } ∧
      (disconnectRecv s).bind disconnectRecv = disconnectRecv s ∧
      connectRecv s addr port = .error .runtimeError := by
  refine ⟨by simp [disconnectRecv, h], ?_, by simp [connectRecv, h]⟩
  simp [disconnectRecv, h, Except.bind]

/-- C7 witness: a connected receiver; `disconnect` twice equals
`disconnect` once, and reconnecting raises. -/
theorem C7_disconnect_idempotent_witness :
    recvConnected.threadStarted = true ∧
      (disconnectRecv recvConnected
          = .ok { recvConnected with running := false, threadFinished := true } ∧
        (disconnectRecv recvConnected).bind disconnectRecv
          = disconnectRecv recvConnected ∧
        connectRecv recvConnected "127.0.0.1" 7722 = .error .runtimeError) :=
  ⟨rfl, C7_disconnect_idempotent recvConnected rfl "127.0.0.1" 7722⟩

end SimPub

